import Mathlib

/-!
# Verification of the multichat-starter-kit aggregation pipeline

Shallow embedding of the real-time chat aggregation pipeline of
`multichat-starter-kit`: the server's broadcast hub and normalizer
(`server/src/index.ts`), the Twitch adapter message handler
(`server/src/adapters/twitch.ts`), the adapter initialization dispatch
(`initializeAdapters` in `server/src/index.ts`), the client's display-mode
computation (`client/src/App.tsx`), and the subscription badge tier
resolution consumed by `client/src/components/ChatMessage.tsx`.

JavaScript conventions are modelled explicitly: an absent object property
or `null` value is `Option.none`; JS truthiness of a string (`"" `, absent
and `null` are falsy) is `jsTruthy`; a thrown exception is `Except.error`.
-/

namespace Multichat

/-! ## JS helpers -/

/-- Truthiness of a JS `string | null | undefined` value: absent, `null`
and the empty string are falsy. -/
def jsTruthy : Option String → Bool
  | none => false
  | some s => !(s == "")

/-- JS `a || b` on `string | null | undefined` operands, returning the
first truthy operand or `b`'s value. -/
def jsOrStr (a : Option String) (b : Option String) : Option String :=
  if jsTruthy a then a else b

/-- JS `x || null` on a `string | null | undefined` value (used for
`color: color || null`). -/
def jsOrNull (a : Option String) : Option String :=
  if jsTruthy a then a else none

/-! ## Shared data model (`shared/types.ts`) -/

/-- The closed platform enumeration `'twitch' | 'youtube' | 'tiktok'`. -/
inductive Platform where
  | twitch
  | youtube
  | tiktok
deriving DecidableEq, Repr

/-- Twitch IRC tags as used by the message handler in
`server/src/adapters/twitch.ts`: `display-name`, `username`, `badges`
(a map from badge name to version string) and `color`. -/
structure TwitchTags where
  displayName : Option String
  username : Option String
  badges : Option (List (String × String))
  color : Option String
deriving DecidableEq, Repr

/-- The opaque platform-specific `raw` payload carried by messages.
Only the Twitch shape is interpreted downstream (badge resolution). -/
inductive RawData where
  | empty
  | twitchRaw (channel : String) (tags : Option TwitchTags)
      (subscriptionMonths : Option Nat)
deriving DecidableEq, Repr

/-- The canonical `ChatMessage` record of `shared/types.ts`. -/
structure ChatMessage where
  id : String
  ts : Nat
  platform : Platform
  username : String
  message : String
  badges : List String
  color : Option String
  raw : RawData
deriving DecidableEq, Repr

/-- An `AdapterEvent`: the shape adapters hand to `onMessage`.
`badges` and `raw` are optional at the wire level (the normalizer
supplies defaults); `color` may be absent. -/
structure AdapterEvent where
  username : String
  message : String
  badges : Option (List String)
  color : Option String
  raw : Option RawData
deriving DecidableEq, Repr

/-! ## Broadcast Hub (`broadcast` in `server/src/index.ts`, lines 93–104)

```js
function broadcast(msg) {
  const data = JSON.stringify(msg);
  for (const client of wss.clients) {
    if (client.readyState === client.OPEN) {
      try { client.send(data); }
      catch (e) { if (DEBUG) console.error('WS send error:', e.message); }
    }
  }
}
```

A viewer transport connection is a `WSClient`; whether `client.send`
throws for a given client is modelled by the `sendFails` field. The
serializer `JSON.stringify` is external, so `broadcast` is parametrized
by it; the single `let data := serialize msg` mirrors the single
`JSON.stringify` call. -/

/-- WebSocket ready states. -/
inductive ReadyState where
  | CONNECTING
  | OPEN
  | CLOSING
  | CLOSED
deriving DecidableEq, Repr

/-- A viewer transport connection as seen by the hub. `sendFails` records
whether `client.send` throws for this client. -/
structure WSClient where
  id : Nat
  readyState : ReadyState
  sendFails : Bool
deriving DecidableEq, Repr

/-- `client.send(data)`: throws exactly when the transport is broken. -/
def WSClient.send (c : WSClient) (data : String) : Except String Unit :=
  if c.sendFails then Except.error "WS send error" else Except.ok ()

/-- One attempted delivery of a serialized frame to one viewer. -/
structure SendAttempt where
  clientId : Nat
  payload : String
  delivered : Bool
deriving DecidableEq, Repr

/-- The `for (const client of wss.clients)` loop of `broadcast`: skip
non-`OPEN` clients; for an `OPEN` client attempt `send` inside
`try { ... } catch { log }` — a thrown send error is swallowed and the
loop continues with the remaining clients. -/
def broadcastLoop (data : String) : List WSClient → List SendAttempt
  | [] => []
  | c :: rest =>
    if c.readyState = ReadyState.OPEN then
      { clientId := c.id, payload := data,
        delivered := (c.send data).isOk } :: broadcastLoop data rest
    else
      broadcastLoop data rest

/-- `broadcast(msg)`: serialize the message once, then fan it out to every
open client. Total: a send failure never escapes to the publisher. -/
def broadcast (serialize : ChatMessage → String) (clients : List WSClient)
    (msg : ChatMessage) : List SendAttempt :=
  let data := serialize msg
  broadcastLoop data clients

/-- Characterization of the fan-out loop: the attempts are exactly one per
open client, in client order, each carrying the same serialized payload;
the attempt list does not depend on whether earlier sends fail. -/
theorem broadcastLoop_eq (data : String) (clients : List WSClient) :
    broadcastLoop data clients =
      (clients.filter (fun c => c.readyState = ReadyState.OPEN)).map
        (fun c => { clientId := c.id, payload := data, delivered := !c.sendFails }) := by
  induction clients with
  | nil => rfl
  | cons c rest ih =>
    by_cases h : c.readyState = ReadyState.OPEN
    · simp [broadcastLoop, h, List.filter_cons, ih, WSClient.send, Except.isOk, Except.toBool]
      cases hc : c.sendFails <;> simp [hc]
    · simp [broadcastLoop, h, List.filter_cons, ih]

/-- Attempts of clients whose id differs from `i` never pass the
per-viewer filter. -/
theorem broadcastLoop_filter_id_not_mem (data : String) (i : Nat)
    (clients : List WSClient) (h : i ∉ clients.map WSClient.id) :
    (broadcastLoop data clients).filter
      (fun a => a.clientId == i && a.delivered) = [] := by
  rw [broadcastLoop_eq, List.filter_eq_nil]
  intro a ha
  rw [List.mem_map] at ha
  obtain ⟨c, hc, rfl⟩ := ha
  have hmem : c.id ∈ clients.map WSClient.id :=
    List.mem_map_of_mem _ (List.mem_of_mem_filter hc)
  simp only [Bool.and_eq_true, beq_iff_eq, not_and]
  intro hid _
  exact h (hid ▸ hmem)

/-- For an open, non-failing client `c` in a client set with no duplicate
ids, the fan-out of one frame delivers exactly one copy of the payload
to `c`. -/
theorem broadcastLoop_filter_self (data : String) (clients : List WSClient)
    (c : WSClient) (hnd : (clients.map WSClient.id).Nodup) (hmem : c ∈ clients)
    (hopen : c.readyState = ReadyState.OPEN) (hok : c.sendFails = false) :
    (broadcastLoop data clients).filter
      (fun a => a.clientId == c.id && a.delivered) =
      [{ clientId := c.id, payload := data, delivered := true }] := by
  induction clients with
  | nil => cases hmem
  | cons d rest ih =>
    rw [List.map_cons, List.nodup_cons] at hnd
    obtain ⟨hid, hnd'⟩ := hnd
    rcases List.mem_cons.mp hmem with heq | hmem'
    · subst heq
      rw [broadcastLoop, if_pos hopen, List.filter_cons,
        broadcastLoop_filter_id_not_mem data c.id rest hid]
      simp [WSClient.send, hok, Except.isOk, Except.toBool]
    · have hne : (d.id == c.id) = false := by
        rw [beq_eq_false_iff_ne]
        intro h
        exact hid (h ▸ List.mem_map_of_mem _ hmem')
      by_cases hdo : d.readyState = ReadyState.OPEN
      · rw [broadcastLoop, if_pos hdo, List.filter_cons]
        simp only [hne, Bool.false_and, if_neg Bool.false_ne_true]
        exact ih hnd' hmem'
      · rw [broadcastLoop, if_neg hdo]
        exact ih hnd' hmem'

/-- The sequence of frames a given viewer connection observes over a
sequence of hub publishes: for each published message in receipt order,
the payloads of the delivered send attempts addressed to that viewer. -/
def observedFrames (serialize : ChatMessage → String) (clients : List WSClient)
    (c : WSClient) : List ChatMessage → List String
  | [] => []
  | m :: rest =>
      ((broadcast serialize clients m).filter
          (fun a => a.clientId == c.id && a.delivered)).map SendAttempt.payload
        ++ observedFrames serialize clients c rest

/-- An open, non-failing viewer in a duplicate-free client set observes
exactly one frame per publish, in receipt order, each the serialization
of the published message. -/
theorem observedFrames_eq_of_open (serialize : ChatMessage → String)
    (clients : List WSClient) (c : WSClient) (msgs : List ChatMessage)
    (hnd : (clients.map WSClient.id).Nodup) (hmem : c ∈ clients)
    (hopen : c.readyState = ReadyState.OPEN) (hok : c.sendFails = false) :
    observedFrames serialize clients c msgs = msgs.map serialize := by
  induction msgs with
  | nil => rfl
  | cons m rest ih =>
    rw [observedFrames, ih, List.map_cons]
    have h := broadcastLoop_filter_self (serialize m) clients c hnd hmem hopen hok
    show ((broadcastLoop (serialize m) clients).filter _).map _ ++ _ = _
    rw [h]
    rfl

/-- A concrete message used to instantiate hub theorems. -/
def demoMsg : ChatMessage :=
  { id := "m1", ts := 0, platform := Platform.twitch, username := "alice",
    message := "hello", badges := [], color := none, raw := RawData.empty }

/-- A second concrete message. -/
def demoMsg2 : ChatMessage :=
  { id := "m2", ts := 1, platform := Platform.youtube, username := "bob",
    message := "hi", badges := [], color := some "#fff", raw := RawData.empty }

/-- A concrete client set: an open client whose transport throws on send,
a closed client, and two healthy open clients. -/
def demoClients : List WSClient :=
  [⟨1, ReadyState.OPEN, true⟩, ⟨2, ReadyState.CLOSED, false⟩,
   ⟨3, ReadyState.OPEN, false⟩, ⟨4, ReadyState.OPEN, false⟩]

/-- C1: for every published event, `broadcast` serializes it once
(`const data = JSON.stringify(msg)`) and attempts delivery of that one
payload to exactly the viewer connections in the `OPEN` state, in order;
a throwing send is caught inside the loop, so the attempt list — hence
delivery to every remaining open viewer — is independent of which sends
fail, and `broadcast` returns normally to the publisher. -/
theorem broadcast_attempts_every_open_viewer (serialize : ChatMessage → String)
    (clients : List WSClient) (msg : ChatMessage) :
    broadcast serialize clients msg =
      (clients.filter (fun c => c.readyState = ReadyState.OPEN)).map
        (fun c => { clientId := c.id, payload := serialize msg,
                    delivered := !c.sendFails }) ∧
    ∀ c ∈ clients, c.readyState = ReadyState.OPEN →
      ({ clientId := c.id, payload := serialize msg, delivered := !c.sendFails }
        : SendAttempt) ∈ broadcast serialize clients msg := by
  constructor
  · exact broadcastLoop_eq (serialize msg) clients
  · intro c hc hopen
    show _ ∈ broadcastLoop (serialize msg) clients
    rw [broadcastLoop_eq]
    exact List.mem_map_of_mem _ (List.mem_filter.mpr ⟨hc, by simp [hopen]⟩)

/-- Witness for C1: in `demoClients`, client 1's send throws, yet client 4
(after the failure) still receives an attempt carrying the serialized
payload. -/
theorem broadcast_attempts_every_open_viewer_witness :
    ({ clientId := 4, payload := "hello", delivered := !false } : SendAttempt)
      ∈ broadcast (fun m => m.message) demoClients demoMsg :=
  (broadcast_attempts_every_open_viewer (fun m => m.message) demoClients
      demoMsg).2 ⟨4, ReadyState.OPEN, false⟩ (by decide) rfl

/-- C2: two viewer connections that are open (with working transports)
across the same sequence of publishes observe identical frame sequences —
the same serialized bytes per event, in publish (hub-receipt) order. -/
theorem observed_order_identical_across_viewers
    (serialize : ChatMessage → String) (clients : List WSClient)
    (c₁ c₂ : WSClient) (msgs : List ChatMessage)
    (hnd : (clients.map WSClient.id).Nodup)
    (h₁ : c₁ ∈ clients) (ho₁ : c₁.readyState = ReadyState.OPEN)
    (hf₁ : c₁.sendFails = false)
    (h₂ : c₂ ∈ clients) (ho₂ : c₂.readyState = ReadyState.OPEN)
    (hf₂ : c₂.sendFails = false) :
    observedFrames serialize clients c₁ msgs = msgs.map serialize ∧
    observedFrames serialize clients c₁ msgs =
      observedFrames serialize clients c₂ msgs := by
  have e₁ := observedFrames_eq_of_open serialize clients c₁ msgs hnd h₁ ho₁ hf₁
  have e₂ := observedFrames_eq_of_open serialize clients c₂ msgs hnd h₂ ho₂ hf₂
  exact ⟨e₁, e₁.trans e₂.symm⟩

/-- Witness for C2: clients 3 and 4 of `demoClients` observe the same
two-frame sequence over the publishes `[demoMsg, demoMsg2]`. -/
theorem observed_order_identical_across_viewers_witness :
    observedFrames (fun m => m.message) demoClients ⟨3, ReadyState.OPEN, false⟩
        [demoMsg, demoMsg2] = [demoMsg, demoMsg2].map (fun m => m.message) ∧
    observedFrames (fun m => m.message) demoClients ⟨3, ReadyState.OPEN, false⟩
        [demoMsg, demoMsg2] =
      observedFrames (fun m => m.message) demoClients ⟨4, ReadyState.OPEN, false⟩
        [demoMsg, demoMsg2] :=
  observed_order_identical_across_viewers (fun m => m.message) demoClients
    ⟨3, ReadyState.OPEN, false⟩ ⟨4, ReadyState.OPEN, false⟩ [demoMsg, demoMsg2]
    (by decide) (by decide) rfl rfl (by decide) rfl rfl

/-! ## Normalizer (`normalize` in `server/src/index.ts`, lines 107–125)

```js
function normalize({ platform, username, message, badges = [], color, raw = {} }) {
  return { id: uuidv4(), ts: Date.now(), platform, username, message,
           badges, color: color || null, raw };
}
```

`uuidv4` and `Date.now` are effects of the environment. The uuid library's
contract is a fresh identifier on every call; it is modelled by a
per-session call counter mapped through an injective, never-empty
encoding `mkUuid`. `Date.now()` at the moment of the call is the
server-side receipt time of the event, supplied per call. -/

/-- Model of one `uuidv4()` output for the `n`-th call of the session:
a non-empty identifier, distinct for distinct `n` (the uuid library's
freshness contract). -/
def mkUuid (n : Nat) : String :=
  String.mk (List.replicate (n + 1) 'u')

/-- `mkUuid n` has length `n + 1`. -/
theorem mkUuid_length (n : Nat) : (mkUuid n).length = n + 1 := by
  simp [mkUuid, String.length]

/-- The body of `normalize`, after the effects `uuidv4()` and `Date.now()`
have produced `id` and `now`: stamps id, timestamp and platform, defaults
an absent badge list to `[]` and an absent raw bag to `{}`, and maps a
falsy color to `null`. -/
def normalize (id : String) (now : Nat) (platform : Platform)
    (e : AdapterEvent) : ChatMessage :=
  { id := id, ts := now, platform := platform, username := e.username,
    message := e.message, badges := e.badges.getD [],
    color := jsOrNull e.color, raw := e.raw.getD RawData.empty }

/-- A session's normalize calls starting from uuid counter `k`: each call
supplies the adapter's declared platform, the adapter event, and the
server receipt time (`Date.now()` at the call). -/
def runNormalizeFrom (k : Nat) :
    List (Platform × AdapterEvent × Nat) → List ChatMessage
  | [] => []
  | (p, e, t) :: rest => normalize (mkUuid k) t p e :: runNormalizeFrom (k + 1) rest

/-- A whole session of normalize calls (uuid counter starts at 0). -/
def runNormalizeSession (calls : List (Platform × AdapterEvent × Nat)) :
    List ChatMessage :=
  runNormalizeFrom 0 calls

/-- Every id produced from counter `k` onwards has length at least
`k + 1`. -/
theorem runNormalizeFrom_id_length (calls : List (Platform × AdapterEvent × Nat)) :
    ∀ k m, m ∈ runNormalizeFrom k calls → k + 1 ≤ m.id.length := by
  induction calls with
  | nil => intro k m hm; cases hm
  | cons c rest ih =>
    obtain ⟨p, e, t⟩ := c
    intro k m hm
    rcases List.mem_cons.mp hm with rfl | hm'
    · exact le_of_eq (mkUuid_length k).symm
    · exact Nat.le_of_succ_le (ih (k + 1) m hm')

/-- Ids produced in one session are pairwise distinct. -/
theorem runNormalizeFrom_id_nodup (calls : List (Platform × AdapterEvent × Nat)) :
    ∀ k, ((runNormalizeFrom k calls).map ChatMessage.id).Nodup := by
  induction calls with
  | nil => intro k; simp [runNormalizeFrom]
  | cons c rest ih =>
    obtain ⟨p, e, t⟩ := c
    intro k
    rw [runNormalizeFrom, List.map_cons, List.nodup_cons]
    refine ⟨?_, ih (k + 1)⟩
    intro hmem
    rw [List.mem_map] at hmem
    obtain ⟨m, hm, hid⟩ := hmem
    have hlen := runNormalizeFrom_id_length rest (k + 1) m hm
    have : m.id.length = k + 1 := by
      rw [hid]
      exact mkUuid_length k
    omega

/-- Per-call field correspondence of a session run. -/
theorem runNormalizeFrom_forall₂ (calls : List (Platform × AdapterEvent × Nat)) :
    ∀ k, List.Forall₂ (fun c (m : ChatMessage) =>
        m.platform = c.1 ∧ m.ts = c.2.2 ∧ m.username = c.2.1.username ∧
        m.message = c.2.1.message ∧
        (c.2.1.badges = none → m.badges = []) ∧
        (c.2.1.color = none → m.color = none))
      calls (runNormalizeFrom k calls) := by
  induction calls with
  | nil => intro k; exact List.Forall₂.nil
  | cons c rest ih =>
    obtain ⟨p, e, t⟩ := c
    intro k
    refine List.Forall₂.cons ⟨rfl, rfl, rfl, rfl, ?_, ?_⟩ (ih (k + 1))
    · intro hb
      have hb' : e.badges = none := hb
      simp [normalize, hb']
    · intro hc
      have hc' : e.color = none := hc
      simp [normalize, hc', jsOrNull, jsTruthy]

/-- C3: over any session of normalize calls, every produced `ChatMessage`
has a non-empty `id`, the ids are pairwise distinct across the session,
and each message's `platform` is the one declared at the call site, its
`ts` is the server receipt time of that call, an absent badge list
becomes `[]`, and an absent color becomes `null`. -/
theorem normalize_session_spec (calls : List (Platform × AdapterEvent × Nat)) :
    (∀ m ∈ runNormalizeSession calls, m.id ≠ "") ∧
    ((runNormalizeSession calls).map ChatMessage.id).Nodup ∧
    List.Forall₂ (fun c (m : ChatMessage) =>
        m.platform = c.1 ∧ m.ts = c.2.2 ∧ m.username = c.2.1.username ∧
        m.message = c.2.1.message ∧
        (c.2.1.badges = none → m.badges = []) ∧
        (c.2.1.color = none → m.color = none))
      calls (runNormalizeSession calls) := by
  refine ⟨?_, runNormalizeFrom_id_nodup calls 0, runNormalizeFrom_forall₂ calls 0⟩
  intro m hm he
  have hlen := runNormalizeFrom_id_length calls 0 m hm
  rw [he] at hlen
  simp [String.length] at hlen

/-- A concrete two-call session used to instantiate the normalizer
theorem. -/
def demoCalls : List (Platform × AdapterEvent × Nat) :=
  [(Platform.twitch,
    { username := "alice", message := "hi", badges := none, color := none,
      raw := none }, 100),
   (Platform.tiktok,
    { username := "bob", message := "yo", badges := some ["moderator"],
      color := some "#123", raw := some RawData.empty }, 101)]

/-- Witness for C3: the session theorem instantiated at the concrete
two-call session `demoCalls`. -/
theorem normalize_session_spec_witness :
    (∀ m ∈ runNormalizeSession demoCalls, m.id ≠ "") ∧
    ((runNormalizeSession demoCalls).map ChatMessage.id).Nodup ∧
    List.Forall₂ (fun c (m : ChatMessage) =>
        m.platform = c.1 ∧ m.ts = c.2.2 ∧ m.username = c.2.1.username ∧
        m.message = c.2.1.message ∧
        (c.2.1.badges = none → m.badges = []) ∧
        (c.2.1.color = none → m.color = none))
      demoCalls (runNormalizeSession demoCalls) :=
  normalize_session_spec demoCalls

/-! ## Badge Resolution Engine (subscription tiers)

`client/src/components/ChatMessage.tsx` resolves a subscriber badge via
`getSubscriptionBadgeUrl(months)` with `const months = subscriptionMonths || 1`
at the call site. The tier-selection body of `getSubscriptionBadgeUrl`
lives in `client/src/contexts/BadgeContext.tsx`, which is not among the
provided sources, so it is modelled from the spec below. -/

/-- The greatest catalog tier not exceeding `months`, or `none` when every
tier exceeds it. -/
def greatestTierLE (months : Nat) : List Nat → Option Nat
  | [] => none
  | t :: ts =>
    if t ≤ months then some (max t ((greatestTierLE months ts).getD t))
    else greatestTierLE months ts

/-- The lowest tier available in the catalog, or `none` for an empty
catalog. -/
def lowestTier : List Nat → Option Nat
  | [] => none
  | t :: ts => some (min t ((lowestTier ts).getD t))

/-- Modelled from the spec: the subscription-badge tier selection of
`getSubscriptionBadgeUrl` in `client/src/contexts/BadgeContext.tsx`
(file not among the provided sources). Per the spec: use the exact
subscription-month tier when the catalog has it; otherwise the nearest
tier not exceeding the given month count; if no tier is ≤ the count,
fall back to the lowest available tier. -/
def resolveSubscriptionTier (tiers : List Nat) (months : Nat) : Option Nat :=
  if months ∈ tiers then some months
  else
    match greatestTierLE months tiers with
    | some t => some t
    | none => lowestTier tiers

/-- The call-site month guard of `ChatMessage.tsx`
(`const months = subscriptionMonths || 1`): an unknown (`null`) or zero
month count is replaced by 1. -/
def subscriptionMonthsForBadge : Option Nat → Nat
  | some m => if m = 0 then 1 else m
  | none => 1

/-- When `greatestTierLE` finds no tier, every tier exceeds the month
count. -/
theorem greatestTierLE_none_spec (months : Nat) :
    ∀ ts : List Nat, greatestTierLE months ts = none →
      ∀ u ∈ ts, months < u := by
  intro ts
  induction ts with
  | nil => intro _ u hu; cases hu
  | cons t rest ih =>
    intro h u hu
    rw [greatestTierLE] at h
    by_cases hle : t ≤ months
    · rw [if_pos hle] at h; cases h
    · rw [if_neg hle] at h
      rcases List.mem_cons.mp hu with rfl | hu'
      · omega
      · exact ih h u hu'

/-- When every tier exceeds the month count, `greatestTierLE` finds
nothing. -/
theorem greatestTierLE_eq_none (months : Nat) :
    ∀ ts : List Nat, (∀ u ∈ ts, months < u) →
      greatestTierLE months ts = none := by
  intro ts
  induction ts with
  | nil => intro _; rfl
  | cons t rest ih =>
    intro h
    have ht : months < t := h t (List.mem_cons_self t rest)
    rw [greatestTierLE, if_neg (by omega)]
    exact ih (fun u hu => h u (List.mem_cons_of_mem t hu))

/-- A found tier is a catalog member, does not exceed the month count,
and dominates every catalog tier that does not exceed the month count. -/
theorem greatestTierLE_some_spec (months : Nat) :
    ∀ (ts : List Nat) (x : Nat), greatestTierLE months ts = some x →
      x ∈ ts ∧ x ≤ months ∧ ∀ u ∈ ts, u ≤ months → u ≤ x := by
  intro ts
  induction ts with
  | nil => intro x h; cases h
  | cons a rest ih =>
    intro x h
    rw [greatestTierLE] at h
    by_cases hle : a ≤ months
    · rw [if_pos hle, Option.some_inj] at h
      rcases hrec : greatestTierLE months rest with _ | v
      · rw [hrec, Option.getD_none, max_self] at h
        subst h
        refine ⟨List.mem_cons_self a rest, hle, ?_⟩
        intro u hu hum
        rcases List.mem_cons.mp hu with rfl | hu'
        · exact le_refl u
        · have := greatestTierLE_none_spec months rest hrec u hu'
          omega
      · rw [hrec, Option.getD_some] at h
        subst h
        obtain ⟨hvmem, hvle, hvmax⟩ := ih v hrec
        refine ⟨?_, max_le hle hvle, ?_⟩
        · rcases Nat.le_total a v with hav | hva
          · rw [max_eq_right hav]
            exact List.mem_cons_of_mem a hvmem
          · rw [max_eq_left hva]
            exact List.mem_cons_self a rest
        · intro u hu hum
          rcases List.mem_cons.mp hu with rfl | hu'
          · exact le_max_left u _
          · exact le_trans (hvmax u hu' hum) (le_max_right a v)
    · rw [if_neg hle] at h
      obtain ⟨hm, hxle, hmax⟩ := ih x h
      refine ⟨List.mem_cons_of_mem a hm, hxle, ?_⟩
      intro u hu hum
      rcases List.mem_cons.mp hu with rfl | hu'
      · omega
      · exact hmax u hu' hum

/-- The lowest tier is a catalog member below every catalog tier. -/
theorem lowestTier_spec :
    ∀ (ts : List Nat) (x : Nat), lowestTier ts = some x →
      x ∈ ts ∧ ∀ u ∈ ts, x ≤ u := by
  intro ts
  induction ts with
  | nil => intro x h; cases h
  | cons a rest ih =>
    intro x h
    rw [lowestTier, Option.some_inj] at h
    rcases hrec : lowestTier rest with _ | v
    · rw [hrec, Option.getD_none, min_self] at h
      subst h
      refine ⟨List.mem_cons_self a rest, ?_⟩
      intro u hu
      rcases List.mem_cons.mp hu with rfl | hu'
      · exact le_refl u
      · cases rest with
        | nil => cases hu'
        | cons b rest' => simp [lowestTier] at hrec
    · rw [hrec, Option.getD_some] at h
      subst h
      obtain ⟨hvmem, hvmin⟩ := ih v hrec
      refine ⟨?_, ?_⟩
      · rcases Nat.le_total a v with hav | hva
        · rw [min_eq_left hav]
          exact List.mem_cons_self a rest
        · rw [min_eq_right hva]
          exact List.mem_cons_of_mem a hvmem
      · intro u hu
        rcases List.mem_cons.mp hu with rfl | hu'
        · exact min_le_left u v
        · exact le_trans (min_le_right a v) (hvmin u hu')

/-- C4: subscription-badge tier resolution is monotonic-downward: an exact
tier match is used when present; otherwise the greatest catalog tier not
exceeding the month count is selected — never a higher, unearned tier;
month 37 against tiers {1,3,6,12,24} resolves to 24; when no tier is ≤
the count, the lowest available tier is used; and an unknown or zero
month count is treated as 1 by the call site. -/
theorem subscription_tier_resolution :
    (∀ (tiers : List Nat) (months : Nat), months ∈ tiers →
      resolveSubscriptionTier tiers months = some months) ∧
    (∀ (tiers : List Nat) (months t : Nat),
      resolveSubscriptionTier tiers months = some t →
      (∃ u ∈ tiers, u ≤ months) →
      t ∈ tiers ∧ t ≤ months ∧ ∀ u ∈ tiers, u ≤ months → u ≤ t) ∧
    resolveSubscriptionTier [1, 3, 6, 12, 24] 37 = some 24 ∧
    (∀ (tiers : List Nat) (months : Nat), (∀ u ∈ tiers, months < u) →
      resolveSubscriptionTier tiers months = lowestTier tiers ∧
      ∀ t, lowestTier tiers = some t → t ∈ tiers ∧ ∀ u ∈ tiers, t ≤ u) ∧
    subscriptionMonthsForBadge none = 1 ∧
    subscriptionMonthsForBadge (some 0) = 1 := by
  refine ⟨?_, ?_, by decide, ?_, rfl, rfl⟩
  · intro tiers months hmem
    rw [resolveSubscriptionTier, if_pos hmem]
  · intro tiers months t hres hex
    by_cases hmem : months ∈ tiers
    · rw [resolveSubscriptionTier, if_pos hmem, Option.some_inj] at hres
      subst hres
      exact ⟨hmem, le_refl _, fun u _ hu => hu⟩
    · rw [resolveSubscriptionTier, if_neg hmem] at hres
      rcases hg : greatestTierLE months tiers with _ | v
      · obtain ⟨u, hu, hum⟩ := hex
        have := greatestTierLE_none_spec months tiers hg u hu
        omega
      · rw [hg, Option.some_inj] at hres
        subst hres
        exact greatestTierLE_some_spec months tiers _ hg
  · intro tiers months hall
    have hmem : months ∉ tiers := fun h => by have := hall months h; omega
    constructor
    · rw [resolveSubscriptionTier, if_neg hmem, greatestTierLE_eq_none months tiers hall]
    · intro t ht
      exact lowestTier_spec tiers t ht

/-- Witness for C4: tier selection evaluated at concrete inputs — month 37
picks tier 24, a catalog all above the count falls back to its lowest
tier, and an absent month count resolves through the call-site default
to tier 1. -/
theorem subscription_tier_resolution_witness :
    resolveSubscriptionTier [1, 3, 6, 12, 24] 37 = some 24 ∧
    resolveSubscriptionTier [10, 20] 5 = lowestTier [10, 20] ∧
    resolveSubscriptionTier [1, 3, 6, 12, 24]
      (subscriptionMonthsForBadge none) = some 1 :=
  ⟨subscription_tier_resolution.2.2.1,
   (subscription_tier_resolution.2.2.2.1 [10, 20] 5 (by decide)).1,
   subscription_tier_resolution.1 [1, 3, 6, 12, 24]
     (subscriptionMonthsForBadge none) (by decide)⟩

/-! ## Twitch adapter message handler
(`server/src/adapters/twitch.ts`, lines 18–42)

```js
client.on('message', (channel, tags, message, self) => {
  if (self) return;
  try {
    let subscriptionMonths = null;
    if (tags.badges && tags.badges.subscriber) {
      subscriptionMonths = parseInt(tags.badges.subscriber, 10);
    }
    onMessage({
      username: tags['display-name'] || tags.username || 'unknown',
      message,
      badges: Object.keys(tags.badges || {}),
      color: tags.color || null,
      raw: { channel, tags, subscriptionMonths }
    });
  } catch (error) { if (debug) console.error(...); }
});
```

A raw upstream event carries the handler's four arguments. A malformed
event is one whose `tags` is `null`: the first property access on it
throws a `TypeError` inside the `try` block. `parseInt(· , 10)` yielding
`NaN` is modelled as `none`. -/

/-- One raw Twitch `message` event: the four arguments tmi.js passes to
the handler. `tags = none` models a `null` tags object, on which any
property access throws. -/
structure TwitchEvent where
  channel : String
  tags : Option TwitchTags
  message : String
  self : Bool
deriving DecidableEq, Repr

/-- `parseInt(s, 10)`: value of the leading digit run, `NaN` (`none`)
when there is none. -/
def parseIntLeading (s : String) : Option Nat :=
  let ds := s.toList.takeWhile Char.isDigit
  if ds.isEmpty then none
  else some (ds.foldl (fun acc c => acc * 10 + (c.toNat - '0'.toNat)) 0)

/-- `tags['display-name'] || tags.username || 'unknown'`: JS short-circuit
over falsy (absent or empty) strings. -/
def twitchUsername (tags : TwitchTags) : String :=
  if jsTruthy tags.displayName then tags.displayName.getD ""
  else if jsTruthy tags.username then tags.username.getD ""
  else "unknown"

/-- `if (tags.badges && tags.badges.subscriber) parseInt(...)`: the
subscriber badge version parsed when the badge map and a truthy
`subscriber` entry exist. -/
def twitchSubscriptionMonths (tags : TwitchTags) : Option Nat :=
  match tags.badges with
  | some bs =>
    match bs.lookup "subscriber" with
    | some v => if v == "" then none else parseIntLeading v
    | none => none
  | none => none

/-- The `try` block of the handler: accessing a `null` tags object throws
a `TypeError`; otherwise the adapter event handed to `onMessage` is
built. -/
def buildAdapterEvent (e : TwitchEvent) : Except String AdapterEvent :=
  match e.tags with
  | none => Except.error "TypeError: Cannot read properties of null"
  | some tags =>
    Except.ok
      { username := twitchUsername tags,
        message := e.message,
        badges := some ((tags.badges.getD []).map Prod.fst),
        color := jsOrNull tags.color,
        raw := some (RawData.twitchRaw e.channel (some tags)
          (twitchSubscriptionMonths tags)) }

/-- The whole handler: self-authored echoes return before the `try`
block; a throw inside the `try` block is caught and logged
(`Except.ok none`), so the handler itself never throws
(an `Except.error` here would be an exception escaping the handler). -/
def handleTwitchMessage (e : TwitchEvent) : Except String (Option AdapterEvent) :=
  if e.self then Except.ok none
  else
    match buildAdapterEvent e with
    | Except.ok evt => Except.ok (some evt)
    | Except.error _ => Except.ok none

/-- A stream of raw events processed in order: the deliveries made to
`onMessage`. An exception escaping the handler (`Except.error`) would
kill the stream — no further event would be delivered. -/
def processTwitchTrace : List TwitchEvent → List AdapterEvent
  | [] => []
  | e :: rest =>
    match handleTwitchMessage e with
    | Except.ok none => processTwitchTrace rest
    | Except.ok (some evt) => evt :: processTwitchTrace rest
    | Except.error _ => []

/-- The handler never lets an exception escape. -/
theorem handleTwitchMessage_isOk (e : TwitchEvent) :
    (handleTwitchMessage e).isOk = true := by
  rw [handleTwitchMessage]
  by_cases hs : e.self = true
  · rw [if_pos hs]; rfl
  · rw [if_neg hs]
    rcases buildAdapterEvent e with _ | evt <;> rfl

/-- C5: an event whose processing throws inside the handler (`null` tags)
is caught there — the handler returns normally with no delivery — and the
trace of deliveries over any following events is exactly what it would
have been without the malformed event, so one bad raw event never
prevents delivery of the next valid one. -/
theorem malformed_twitch_event_isolated :
    (∀ e : TwitchEvent, (handleTwitchMessage e).isOk = true) ∧
    (∀ (e : TwitchEvent) (rest : List TwitchEvent),
      e.self = false → e.tags = none →
      handleTwitchMessage e = Except.ok none ∧
      processTwitchTrace (e :: rest) = processTwitchTrace rest) := by
  refine ⟨handleTwitchMessage_isOk, ?_⟩
  intro e rest hs ht
  have hh : handleTwitchMessage e = Except.ok none := by
    rw [handleTwitchMessage, if_neg (by rw [hs]; exact Bool.false_ne_true),
      buildAdapterEvent, ht]
  exact ⟨hh, by rw [processTwitchTrace, hh]⟩

/-- A malformed raw Twitch event: `null` tags, not self-authored. -/
def demoBadEvent : TwitchEvent :=
  { channel := "#chan", tags := none, message := "bad", self := false }

/-- A well-formed raw Twitch event. -/
def demoGoodEvent : TwitchEvent :=
  { channel := "#chan",
    tags := some { displayName := some "Alice", username := some "alice",
                   badges := some [("subscriber", "12")], color := none },
    message := "hello", self := false }

/-- Witness for C5: the malformed event is swallowed and the following
valid event is still delivered. -/
theorem malformed_twitch_event_isolated_witness :
    handleTwitchMessage demoBadEvent = Except.ok none ∧
    processTwitchTrace [demoBadEvent, demoGoodEvent] =
      processTwitchTrace [demoGoodEvent] :=
  malformed_twitch_event_isolated.2 demoBadEvent [demoGoodEvent] rfl rfl

/-- C7: a Twitch event whose `self` flag is set (an echo of the bot's own
send) never reaches `onMessage`: the handler returns before the `try`
block, and every delivery trace equals the trace of the non-self events
alone. -/
theorem self_twitch_events_filtered :
    (∀ e : TwitchEvent, e.self = true → handleTwitchMessage e = Except.ok none) ∧
    (∀ es : List TwitchEvent,
      processTwitchTrace es = processTwitchTrace (es.filter (fun e => !e.self))) := by
  have hself : ∀ e : TwitchEvent, e.self = true →
      handleTwitchMessage e = Except.ok none := by
    intro e hs
    rw [handleTwitchMessage, if_pos hs]
  refine ⟨hself, ?_⟩
  intro es
  induction es with
  | nil => rfl
  | cons e rest ih =>
    by_cases hs : e.self = true
    · rw [List.filter_cons, processTwitchTrace, hself e hs, ih]
      simp [hs]
    · rw [List.filter_cons]
      have hs' : (!e.self) = true := by
        cases hb : e.self
        · rfl
        · exact absurd hb hs
      rw [if_pos hs', processTwitchTrace, processTwitchTrace, ih]

/-- A self-authored echo event. -/
def demoSelfEvent : TwitchEvent :=
  { channel := "#chan",
    tags := some { displayName := some "Bot", username := some "bot",
                   badges := none, color := none },
    message := "echo", self := true }

/-- Witness for C7: the concrete self event produces no delivery. -/
theorem self_twitch_events_filtered_witness :
    handleTwitchMessage demoSelfEvent = Except.ok none :=
  self_twitch_events_filtered.1 demoSelfEvent rfl

/-- A truthy JS string value is a present, non-empty string. -/
theorem jsTruthy_spec {o : Option String} (h : jsTruthy o = true) :
    ∃ s, o = some s ∧ s ≠ "" := by
  cases o with
  | none => cases h
  | some s =>
    refine ⟨s, rfl, ?_⟩
    simp [jsTruthy] at h
    exact h

/-- C8: every adapter event a Twitch raw event produces carries a
non-empty username: the display name when truthy, else the source
username when truthy, else the literal fallback `"unknown"`; and
`normalize` passes the username through unchanged into the
`ChatMessage`. -/
theorem twitch_username_nonempty (e : TwitchEvent) (evt : AdapterEvent)
    (h : handleTwitchMessage e = Except.ok (some evt)) :
    evt.username ≠ "" ∧
    (∀ tags, e.tags = some tags →
      (jsTruthy tags.displayName = true →
        tags.displayName = some evt.username) ∧
      (jsTruthy tags.displayName = false → jsTruthy tags.username = true →
        tags.username = some evt.username) ∧
      (jsTruthy tags.displayName = false → jsTruthy tags.username = false →
        evt.username = "unknown")) ∧
    (∀ (id : String) (now : Nat),
      (normalize id now Platform.twitch evt).username = evt.username) := by
  rw [handleTwitchMessage] at h
  by_cases hs : e.self = true
  · rw [if_pos hs] at h
    simp at h
  · rw [if_neg hs] at h
    rcases hb : buildAdapterEvent e with err | evt'
    · rw [hb] at h
      simp at h
    · rw [hb] at h
      simp only [Except.ok.injEq, Option.some.injEq] at h
      subst h
      rw [buildAdapterEvent] at hb
      rcases ht : e.tags with _ | tags
      · rw [ht] at hb
        cases hb
      · rw [ht] at hb
        simp only [Except.ok.injEq] at hb
        subst hb
        refine ⟨?_, ?_, fun id now => rfl⟩
        · show twitchUsername tags ≠ ""
          rw [twitchUsername]
          by_cases h1 : jsTruthy tags.displayName = true
          · rw [if_pos h1]
            obtain ⟨s, hso, hne⟩ := jsTruthy_spec h1
            rw [hso, Option.getD_some]
            exact hne
          · rw [if_neg h1]
            by_cases h2 : jsTruthy tags.username = true
            · rw [if_pos h2]
              obtain ⟨s, hso, hne⟩ := jsTruthy_spec h2
              rw [hso, Option.getD_some]
              exact hne
            · rw [if_neg h2]
              simp
        · intro tags' htags'
          have heq : tags = tags' := Option.some_inj.mp htags'
          subst heq
          refine ⟨?_, ?_, ?_⟩
          · intro h1
            obtain ⟨s, hso, _⟩ := jsTruthy_spec h1
            show tags.displayName = some (twitchUsername tags)
            rw [twitchUsername, if_pos h1, hso, Option.getD_some]
          · intro h1 h2
            obtain ⟨s, hso, _⟩ := jsTruthy_spec h2
            show tags.username = some (twitchUsername tags)
            rw [twitchUsername, if_neg (by rw [h1]; exact Bool.false_ne_true),
              if_pos h2, hso, Option.getD_some]
          · intro h1 h2
            show twitchUsername tags = "unknown"
            rw [twitchUsername, if_neg (by rw [h1]; exact Bool.false_ne_true),
              if_neg (by rw [h2]; exact Bool.false_ne_true)]

/-- The adapter event produced from `demoGoodEvent`. -/
def demoGoodAdapterEvent : AdapterEvent :=
  { username := "Alice", message := "hello", badges := some ["subscriber"],
    color := none,
    raw := some (RawData.twitchRaw "#chan"
      (some { displayName := some "Alice", username := some "alice",
              badges := some [("subscriber", "12")], color := none })
      (some 12)) }

/-- Witness for C8: the concrete good event yields a non-empty username
(the display name `"Alice"`). -/
theorem twitch_username_nonempty_witness :
    demoGoodAdapterEvent.username ≠ "" :=
  (twitch_username_nonempty demoGoodEvent demoGoodAdapterEvent rfl).1

/-! ## Adapter initialization
(`initializeAdapters` in `server/src/index.ts`, lines 144–204, and
`startTwitch` in `server/src/adapters/twitch.ts`, lines 6–16)

Each platform's block runs only when its required env keys are truthy;
the `await startX(...)` is wrapped in `try { ... } catch { log }`, so a
throwing start is recorded as a console error and skipped, never
re-raised. `startTwitch` destructures `channel` (singular) from its
config, but the server passes `channels` (an array) and no `channel`
key, so `channel` is `undefined` and `channel.startsWith('#')` throws a
`TypeError` before any client is created. `startTikTok` and
`startYouTube` live in source files not provided, and are modelled from
the spec. -/

/-- A JS runtime error value. -/
inductive JsError where
  | typeError (msg : String)
deriving DecidableEq, Repr

/-- The config object `startTwitch` receives: absent keys are `none`.
The server's call site supplies `channels` (plural) but never
`channel`. -/
structure TwitchAdapterConfig where
  username : Option String := none
  oauth : Option String := none
  channel : Option String := none
  channels : Option (List String) := none
  debug : Bool := false
deriving DecidableEq, Repr

/-- The handle `startTwitch` would return: a connected tmi.js client
joined to the normalized channel. -/
structure TwitchHandle where
  joinedChannels : List String
deriving DecidableEq, Repr

/-- `startTwitch` up to its first suspension: destructure `channel`,
normalize the leading `'#'`, build the client. With no `channel` key the
destructured value is `undefined` and `channel.startsWith('#')` throws a
`TypeError` before the client exists (the connect itself is external and
modelled as succeeding). -/
def startTwitch (cfg : TwitchAdapterConfig) : Except JsError TwitchHandle :=
  match cfg.channel with
  | none =>
    Except.error (JsError.typeError
      "Cannot read properties of undefined (reading 'startsWith')")
  | some channel =>
    let normalizedChannel :=
      if channel.startsWith "#" then channel.drop 1 else channel
    Except.ok { joinedChannels := [normalizedChannel] }

/-- TikTok adapter config as built by the server. -/
structure TikTokAdapterConfig where
  username : String
  debug : Bool
deriving DecidableEq, Repr

/-- YouTube adapter config as built by the server. -/
structure YouTubeAdapterConfig where
  channelId : String
  retryWhenOffline : Bool
  debug : Bool
deriving DecidableEq, Repr

/-- Modelled from the spec: `startTikTok` of
`server/src/adapters/tiktok.ts` (file not among the provided sources).
Per the spec an adapter connects with the supplied credentials and
returns a stop handle; start succeeds for a configured username. -/
def startTikTok (cfg : TikTokAdapterConfig) : Except JsError Unit :=
  Except.ok ()

/-- Modelled from the spec: `startYouTube` of
`server/src/adapters/youtube.ts` (file not among the provided sources).
Per the spec an adapter connects with the supplied identifiers and
returns a stop handle; start succeeds for a configured channel id. -/
def startYouTube (cfg : YouTubeAdapterConfig) : Except JsError Unit :=
  Except.ok ()

/-- The environment keys `initializeAdapters` reads. -/
structure Env where
  TWITCH_USERNAME : Option String := none
  TWITCH_OAUTH : Option String := none
  TWITCH_CHANNELS : Option String := none
  TIKTOK_USERNAME : Option String := none
  YT_CHANNEL_ID : Option String := none
  YT_RETRY_WHEN_OFFLINE : Option String := none
  FAKE_MESSAGES : Option String := none
deriving DecidableEq, Repr

/-- `TWITCH_CHANNELS.split(',').map(s => s.trim()).filter(Boolean)`. -/
def splitChannels (s : String) : List String :=
  ((s.splitOn ",").map String.trim).filter (fun c => !(c == ""))

/-- The config object the server passes to `startTwitch`: note the
`channels` key (plural) and the absence of any `channel` key. -/
def serverTwitchConfig (env : Env) (debug : Bool) : TwitchAdapterConfig :=
  { username := env.TWITCH_USERNAME, oauth := env.TWITCH_OAUTH,
    channels := some (splitChannels (env.TWITCH_CHANNELS.getD "")),
    channel := none, debug := debug }

/-- The guard of the Twitch block:
`process.env.TWITCH_USERNAME && process.env.TWITCH_OAUTH &&
process.env.TWITCH_CHANNELS` (JS truthiness). -/
def twitchKeys (env : Env) : Bool :=
  jsTruthy env.TWITCH_USERNAME && jsTruthy env.TWITCH_OAUTH &&
    jsTruthy env.TWITCH_CHANNELS

/-- The guard of the fake-message block:
`process.env.FAKE_MESSAGES === "true"` (strict equality). -/
def fakeOn (env : Env) : Bool :=
  env.FAKE_MESSAGES == some "true"

/-- Which adapter a start attempt or registered stop function belongs
to. -/
inductive AdapterTag where
  | twitch
  | tiktok
  | youtube
  | fake
deriving DecidableEq, Repr

/-- Outcome of `initializeAdapters`: which adapter starts were attempted
(the `await startX` calls made) and which stop functions were pushed to
`stopFns` (the adapters actually started). The function is total: a
throwing start is caught and logged, never re-raised. -/
structure InitResult where
  attempts : List AdapterTag
  stopFns : List AdapterTag
deriving DecidableEq, Repr

/-- `initializeAdapters`, block by block in source order: Twitch, TikTok,
YouTube, fake messages. An absent required key skips the block entirely;
a start error inside a block is caught (`console.error`) and registers
nothing. -/
def initializeAdapters (env : Env) (debug : Bool) : InitResult :=
  let tw : InitResult :=
    if twitchKeys env then
      match startTwitch (serverTwitchConfig env debug) with
      | Except.ok _ => ⟨[AdapterTag.twitch], [AdapterTag.twitch]⟩
      | Except.error _ => ⟨[AdapterTag.twitch], []⟩
    else ⟨[], []⟩
  let tk : InitResult :=
    if jsTruthy env.TIKTOK_USERNAME then
      let cfg : TikTokAdapterConfig :=
        { username := env.TIKTOK_USERNAME.getD "", debug := debug }
      match startTikTok cfg with
      | Except.ok _ => ⟨[AdapterTag.tiktok], [AdapterTag.tiktok]⟩
      | Except.error _ => ⟨[AdapterTag.tiktok], []⟩
    else ⟨[], []⟩
  let yt : InitResult :=
    if jsTruthy env.YT_CHANNEL_ID then
      let cfg : YouTubeAdapterConfig :=
        { channelId := env.YT_CHANNEL_ID.getD "",
          retryWhenOffline :=
            ((env.YT_RETRY_WHEN_OFFLINE.getD "true").toLower == "true"),
          debug := debug }
      match startYouTube cfg with
      | Except.ok _ => ⟨[AdapterTag.youtube], [AdapterTag.youtube]⟩
      | Except.error _ => ⟨[AdapterTag.youtube], []⟩
    else ⟨[], []⟩
  let fk : InitResult :=
    if fakeOn env then ⟨[AdapterTag.fake], [AdapterTag.fake]⟩ else ⟨[], []⟩
  ⟨tw.attempts ++ tk.attempts ++ yt.attempts ++ fk.attempts,
   tw.stopFns ++ tk.stopFns ++ yt.stopFns ++ fk.stopFns⟩

/-- Closed form of `initializeAdapters`: attempts are exactly the blocks
whose guards pass; the Twitch block, even when attempted, registers no
stop function because its start always throws under the server's own
config. -/
theorem initializeAdapters_eq (env : Env) (debug : Bool) :
    initializeAdapters env debug =
      { attempts :=
          (if twitchKeys env then [AdapterTag.twitch] else []) ++
          (if jsTruthy env.TIKTOK_USERNAME then [AdapterTag.tiktok] else []) ++
          (if jsTruthy env.YT_CHANNEL_ID then [AdapterTag.youtube] else []) ++
          (if fakeOn env then [AdapterTag.fake] else []),
        stopFns :=
          (if jsTruthy env.TIKTOK_USERNAME then [AdapterTag.tiktok] else []) ++
          (if jsTruthy env.YT_CHANNEL_ID then [AdapterTag.youtube] else []) ++
          (if fakeOn env then [AdapterTag.fake] else []) } := by
  cases h1 : twitchKeys env <;>
  cases h2 : jsTruthy env.TIKTOK_USERNAME <;>
  cases h3 : jsTruthy env.YT_CHANNEL_ID <;>
  cases h4 : fakeOn env <;>
  simp [initializeAdapters, h1, h2, h3, h4, startTwitch, serverTwitchConfig,
    startTikTok, startYouTube]

/-- C9: under the server's own configuration the Twitch config has no
`channel` key, so `startTwitch` throws a `TypeError` at
`channel.startsWith('#')` before creating a client or registering any
handler; the call site catches and logs it, so whenever the Twitch env
keys are present the start is attempted but no Twitch stop function is
ever registered. -/
theorem server_twitch_start_always_fails (env : Env) (debug : Bool)
    (h : twitchKeys env = true) :
    (serverTwitchConfig env debug).channel = none ∧
    startTwitch (serverTwitchConfig env debug) =
      Except.error (JsError.typeError
        "Cannot read properties of undefined (reading 'startsWith')") ∧
    AdapterTag.twitch ∈ (initializeAdapters env debug).attempts ∧
    AdapterTag.twitch ∉ (initializeAdapters env debug).stopFns := by
  refine ⟨rfl, rfl, ?_, ?_⟩
  · rw [initializeAdapters_eq]
    simp [h]
  · rw [initializeAdapters_eq]
    cases h2 : jsTruthy env.TIKTOK_USERNAME <;>
    cases h3 : jsTruthy env.YT_CHANNEL_ID <;>
    cases h4 : fakeOn env <;>
    simp [h2, h3, h4]

/-- An environment with only the three Twitch keys set. -/
def demoEnvTwitchOnly : Env :=
  { TWITCH_USERNAME := some "botuser", TWITCH_OAUTH := some "oauth:token",
    TWITCH_CHANNELS := some "somechannel" }

/-- Witness for C9: with only the Twitch keys configured, the Twitch
start is attempted, throws, and registers nothing. -/
theorem server_twitch_start_always_fails_witness :
    (serverTwitchConfig demoEnvTwitchOnly false).channel = none ∧
    startTwitch (serverTwitchConfig demoEnvTwitchOnly false) =
      Except.error (JsError.typeError
        "Cannot read properties of undefined (reading 'startsWith')") ∧
    AdapterTag.twitch ∈ (initializeAdapters demoEnvTwitchOnly false).attempts ∧
    AdapterTag.twitch ∉ (initializeAdapters demoEnvTwitchOnly false).stopFns :=
  server_twitch_start_always_fails demoEnvTwitchOnly false (by decide)

/-- Counterexample to claim C6 as frozen: with the Twitch keys present
and the TikTok key absent, the claim says TikTok is skipped (true) while
Twitch "is still started" — but the run registers no stop function at
all: the attempted Twitch start throws and is caught. -/
theorem adapters_counterexample :
    jsTruthy demoEnvTwitchOnly.TWITCH_USERNAME = true ∧
    jsTruthy demoEnvTwitchOnly.TWITCH_OAUTH = true ∧
    jsTruthy demoEnvTwitchOnly.TWITCH_CHANNELS = true ∧
    jsTruthy demoEnvTwitchOnly.TIKTOK_USERNAME = false ∧
    AdapterTag.twitch ∈ (initializeAdapters demoEnvTwitchOnly false).attempts ∧
    (initializeAdapters demoEnvTwitchOnly false).stopFns = [] := by
  decide

/-- C6 (amended): a platform with an absent required env key is skipped —
its start is never attempted and nothing is registered, with no error
raised (`initializeAdapters` is a total function) — while every other
platform whose keys are present still has its start attempted; TikTok
and YouTube, whose starts succeed, are then registered, whereas the
attempted Twitch start throws under the server's own config, is caught,
and registers nothing. -/
theorem adapters_skipped_on_missing_keys (env : Env) (debug : Bool) :
    (twitchKeys env = false →
      AdapterTag.twitch ∉ (initializeAdapters env debug).attempts ∧
      AdapterTag.twitch ∉ (initializeAdapters env debug).stopFns) ∧
    (jsTruthy env.TIKTOK_USERNAME = false →
      AdapterTag.tiktok ∉ (initializeAdapters env debug).attempts ∧
      AdapterTag.tiktok ∉ (initializeAdapters env debug).stopFns) ∧
    (jsTruthy env.YT_CHANNEL_ID = false →
      AdapterTag.youtube ∉ (initializeAdapters env debug).attempts ∧
      AdapterTag.youtube ∉ (initializeAdapters env debug).stopFns) ∧
    (twitchKeys env = true →
      AdapterTag.twitch ∈ (initializeAdapters env debug).attempts) ∧
    (jsTruthy env.TIKTOK_USERNAME = true →
      AdapterTag.tiktok ∈ (initializeAdapters env debug).attempts ∧
      AdapterTag.tiktok ∈ (initializeAdapters env debug).stopFns) ∧
    (jsTruthy env.YT_CHANNEL_ID = true →
      AdapterTag.youtube ∈ (initializeAdapters env debug).attempts ∧
      AdapterTag.youtube ∈ (initializeAdapters env debug).stopFns) := by
  rw [initializeAdapters_eq]
  refine ⟨?_, ?_, ?_, ?_, ?_, ?_⟩ <;> intro h <;>
  (cases h1 : twitchKeys env <;> cases h2 : jsTruthy env.TIKTOK_USERNAME <;>
   cases h3 : jsTruthy env.YT_CHANNEL_ID <;> cases h4 : fakeOn env <;>
   simp_all)

/-- Witness for C6 (amended): with only the Twitch keys set, TikTok and
YouTube are skipped without error and the attempted Twitch start
registers nothing. -/
theorem adapters_skipped_on_missing_keys_witness :
    (AdapterTag.tiktok ∉ (initializeAdapters demoEnvTwitchOnly false).attempts ∧
      AdapterTag.tiktok ∉ (initializeAdapters demoEnvTwitchOnly false).stopFns) ∧
    AdapterTag.twitch ∈ (initializeAdapters demoEnvTwitchOnly false).attempts :=
  ⟨(adapters_skipped_on_missing_keys demoEnvTwitchOnly false).2.1 rfl,
   (adapters_skipped_on_missing_keys demoEnvTwitchOnly false).2.2.2.1 (by decide)⟩

/-! ## Client display mode (`App.tsx`, lines 280–293)

```js
const [isPublicMode] = useState(() => {
  const params = new URLSearchParams(window.location.search)
  const modeParam = params.get('mode')
  const privateParam = params.get('private')
  const isPrivateParam = typeof privateParam === 'string' &&
    ['1', 'true', 'yes'].includes(privateParam.toLowerCase())
  const path = window.location.pathname.replace(/\\/+$/, '')
  const isPrivatePath = path === '/private'
  const isPublicMode = modeParam === 'public'
  return isPublicMode || !(isPrivateParam || isPrivatePath)
})
```

and `useChatMessages({ autoExpire: isPublicMode })` enables auto-expiry
exactly in public mode. `params.get` returning `null` is `none`. -/

/-- `pathname.replace(/\\/+$/, '')`: strip every trailing slash. -/
def stripTrailingSlashes (s : String) : String :=
  String.mk ((s.toList.reverse.dropWhile (fun c => c == '/')).reverse)

/-- `['1', 'true', 'yes'].includes(s.toLowerCase())`. -/
def isPrivateValue (s : String) : Bool :=
  ["1", "true", "yes"].contains s.toLower

/-- The `isPublicMode` initializer of `App.tsx`. -/
def computeIsPublicMode (modeParam privateParam : Option String)
    (pathname : String) : Bool :=
  let isPrivateParam : Bool :=
    match privateParam with
    | some s => isPrivateValue s
    | none => false
  let path := stripTrailingSlashes pathname
  let isPrivatePath : Bool := path == "/private"
  let isPublicModeQuery : Bool := modeParam == some "public"
  isPublicModeQuery || !(isPrivateParam || isPrivatePath)

/-- The mode configuration the app derives from the URL: the display
mode and the auto-expiry flag passed to `useChatMessages`
(`autoExpire: isPublicMode`). -/
structure AppModeConfig where
  isPublicMode : Bool
  autoExpire : Bool
deriving DecidableEq, Repr

/-- `App`'s mode wiring: auto-expiry is enabled exactly in public mode. -/
def appMode (modeParam privateParam : Option String)
    (pathname : String) : AppModeConfig :=
  let p := computeIsPublicMode modeParam privateParam pathname
  { isPublicMode := p, autoExpire := p }

/-- C10: unless the query sets `private` to one of `1`/`true`/`yes`
(case-insensitive) or the path (with trailing slashes stripped) is
`/private`, the app computes `isPublicMode = true` and enables message
auto-expiry — with no parameters at all, and even with `?mode=private`;
conversely, private mode is only ever selected by such a `private`
parameter or the `/private` path. -/
theorem public_mode_default (modeParam privateParam : Option String)
    (pathname : String) :
    ((∀ s, privateParam = some s → isPrivateValue s = false) →
      stripTrailingSlashes pathname ≠ "/private" →
      (appMode modeParam privateParam pathname).isPublicMode = true ∧
      (appMode modeParam privateParam pathname).autoExpire = true) ∧
    ((appMode none none "/").isPublicMode = true ∧
      (appMode none none "/").autoExpire = true) ∧
    ((appMode (some "private") none "/").isPublicMode = true) ∧
    ((appMode modeParam privateParam pathname).isPublicMode = false →
      (∃ s, privateParam = some s ∧ isPrivateValue s = true) ∨
      stripTrailingSlashes pathname = "/private") := by
  have hcore : ∀ mp pp pn, (∀ s, pp = some s → isPrivateValue s = false) →
      stripTrailingSlashes pn ≠ "/private" →
      computeIsPublicMode mp pp pn = true := by
    intro mp pp pn hp hpath
    have h2 : (stripTrailingSlashes pn == "/private") = false := by
      rw [beq_eq_false_iff_ne]
      exact hpath
    cases pp with
    | none =>
      show ((mp == some "public") ||
        !(false || (stripTrailingSlashes pn == "/private"))) = true
      rw [h2]
      simp
    | some s =>
      have h1 : isPrivateValue s = false := hp s rfl
      show ((mp == some "public") ||
        !(isPrivateValue s || (stripTrailingSlashes pn == "/private"))) = true
      rw [h1, h2]
      simp
  refine ⟨?_, ?_, ?_, ?_⟩
  · intro hp hpath
    have := hcore modeParam privateParam pathname hp hpath
    exact ⟨this, this⟩
  · constructor <;> decide
  · decide
  · intro hfalse
    by_cases hpp : ∃ s, privateParam = some s ∧ isPrivateValue s = true
    · exact Or.inl hpp
    · by_cases hpath : stripTrailingSlashes pathname = "/private"
      · exact Or.inr hpath
      · exfalso
        have hp : ∀ s, privateParam = some s → isPrivateValue s = false := by
          intro s hs
          cases hb : isPrivateValue s
          · rfl
          · exact absurd ⟨s, hs, hb⟩ hpp
        have := hcore modeParam privateParam pathname hp hpath
        rw [show (appMode modeParam privateParam pathname).isPublicMode =
          computeIsPublicMode modeParam privateParam pathname from rfl, this]
          at hfalse
        cases hfalse

/-- Witness for C10: with no query parameters on `/`, public mode and
auto-expiry are on; and with `?mode=private` the mode is still public. -/
theorem public_mode_default_witness :
    ((appMode none none "/").isPublicMode = true ∧
      (appMode none none "/").autoExpire = true) ∧
    (appMode (some "private") none "/").isPublicMode = true :=
  ⟨(public_mode_default none none "/").1 (fun s h => nomatch h) (by decide),
   (public_mode_default (some "private") none "/").2.2.1⟩

end Multichat
